import Mathlib

/-!
Verification of the MQTT publish/subscribe sketch (`My_MQTT_PubSub.ino.ino`).

The sketch is single-threaded straight-line Arduino code.  We embed each
routine (`callback`, `setup_wifi`, `setup_mqtt`, `button`, `reconnect`,
`loop`) as a pure function from an *environment* — the outcomes the
external libraries would return (connect results, publish results, the
WiFi status over time, the debounced edge event, pending inbound
messages) — to the list of observable actions (library calls) the routine
performs, in order.  Unbounded `while` loops take a fuel argument and
return `none` when the fuel runs out, i.e. when the loop has not yet
exited; undefined behaviour (the out-of-bounds payload read) is also
modelled as `none`.
-/

namespace MQTT

/-- Electrical level written by `digitalWrite`. -/
inductive Level
  | LOW
  | HIGH
deriving DecidableEq, Repr

/-- The pins the sketch writes: `ledPin = LED_BUILTIN` (= `BUILTIN_LED`) and
`buttonPin = 13`. -/
inductive Pin
  | led
  | button
deriving DecidableEq, Repr

/-- One observable action: a call into the Serial / WiFi / Bounce2 /
PubSubClient libraries, in the order the sketch makes them.
`mqttConnect id cred` records `client.connect(id)` when `cred = none` and
`client.connect(id, user, pass)` when `cred = some (user, pass)`.
`deliver` records the PubSubClient library handing one pending inbound
message to the registered callback from inside `client.loop()`. -/
inductive Action
  | serialBegin (baud : Nat)
  | serialPrint (s : String)
  | digitalWrite (p : Pin) (l : Level)
  | bouncerUpdate
  | delayMs (ms : Nat)
  | wifiSetHostname (h : String)
  | wifiSetModeSTA
  | wifiBegin (ssid pass : String)
  | wifiStatusCheck
  | mqttConnect (clientId : String) (cred : Option (String × String))
  | setCallback
  | publish (topic : String) (payload : String)
  | subscribe (topic : String)
  | mqttPoll
  | deliver (topic : String) (payload : List Char)
deriving DecidableEq, Repr

/-- The configuration strings loaded from `credentials.h` (contents
unknown; every theorem is universally quantified over them). -/
structure Config where
  wifi_ssid : String
  wifi_password : String
  wifi_hostname : String
  mqtt_server : String
  mqtt_clientID : String
  mqtt_username : String
  mqtt_password : String
  mqtt_in_topic : String
  mqtt_out_topic : String
deriving DecidableEq, Repr

/-- Broker-session state: `client.connect` succeeded (`Active`) or not. -/
inductive SessionState
  | Active
  | Disconnected
deriving DecidableEq, Repr

def Action.isPublish : Action → Bool
  | .publish _ _ => true
  | _ => false

def Action.isConnect : Action → Bool
  | .mqttConnect _ _ => true
  | _ => false

def Action.isDeliver : Action → Bool
  | .deliver _ _ => true
  | _ => false

def Action.isDelay : Action → Bool
  | .delayMs _ => true
  | _ => false

def Action.isSubscribe : Action → Bool
  | .subscribe _ => true
  | _ => false

def Action.isSetCallback : Action → Bool
  | .setCallback => true
  | _ => false

def Action.isPoll : Action → Bool
  | .mqttPoll => true
  | _ => false

/-- Number of `client.publish` calls in a trace. -/
def publishCount (t : List Action) : Nat := (t.filter Action.isPublish).length

/-- The `client.connect` calls in a trace, in order. -/
def connectsOf (t : List Action) : List Action := t.filter Action.isConnect

/-- The levels written to the LED pin in a trace, in order. -/
def ledWritesOf (t : List Action) : List Level :=
  t.filterMap fun a =>
    match a with
    | .digitalWrite .led l => some l
    | _ => none

/-- `callback(topic, payload, length)`: prints the topic and every payload
byte, then branches on `(char)payload[0]`: on `'1'` it writes `LOW`
(active, the LED is active-low) to `BUILTIN_LED`, otherwise `HIGH`.
The read `payload[0]` is modelled with `List.get?`: on a zero-length
payload it is an out-of-bounds read, i.e. undefined behaviour, modelled
as `none`. -/
def callback (topic : String) (payload : List Char) : Option (List Action) :=
  match payload.get? 0 with
  | some c =>
      some ([Action.serialPrint "Message arrived [", Action.serialPrint topic,
             Action.serialPrint "] "]
            ++ payload.map (fun b => Action.serialPrint (String.singleton b))
            ++ [Action.serialPrint "",
                Action.digitalWrite Pin.led (if c = '1' then Level.LOW else Level.HIGH)])
  | none => none

/-- The debounced edge event `bouncer.rose()` / `bouncer.fell()` reports
this tick (`idle`: neither). -/
inductive Edge
  | rising
  | falling
  | idle
deriving DecidableEq, Repr

/-- Environment for one call of `button()`: the edge event the bouncer
reports, the result of the first `client.publish`, and the results of the
inline `client.connect` and of the retried `client.publish` on the failure
path.  The source discards the latter two booleans (lines 157 and 160 are
bare expression statements), so `button` below never consults `conn` or
`pub2`. -/
structure ButtonEnv where
  edge : Edge
  pub1 : Bool
  conn : Bool
  pub2 : Bool
deriving DecidableEq, Repr

/-- `button()`: updates the bouncer, then on a rising edge writes `LOW`
(LED on) and publishes `"Button pressed!"`; if that publish fails it logs,
re-runs `client.connect(clientID, user, pass)`, delays 10 ms and retries
the publish once, ignoring both results.  On a falling edge it writes
`HIGH` (LED off) and does nothing else. -/
def button (cfg : Config) (env : ButtonEnv) : List Action :=
  Action.bouncerUpdate ::
    (match env.edge with
     | .rising =>
         Action.digitalWrite Pin.led Level.LOW ::
           Action.publish cfg.mqtt_out_topic "Button pressed!" ::
             (if env.pub1 then
                [Action.serialPrint "Button pushed and message sent!"]
              else
                [Action.serialPrint
                   "Message failed to send. Reconnecting to MQTT Broker and trying again",
                 Action.mqttConnect cfg.mqtt_clientID
                   (some (cfg.mqtt_username, cfg.mqtt_password)),
                 Action.delayMs 10,
                 Action.publish cfg.mqtt_out_topic "Button pressed!"])
     | .falling => [Action.digitalWrite Pin.led Level.HIGH]
     | .idle => [])

/-- One failed iteration of the `reconnect()` loop body: log the attempt,
`client.connect(mqtt_clientID)` (client id only, no credentials), log the
failure (the numeric `client.state()` print is folded into the log
lines), then `delay(5000)`. -/
def attemptFail (cfg : Config) : List Action :=
  [Action.serialPrint "Attempting MQTT reconnection...",
   Action.mqttConnect cfg.mqtt_clientID none,
   Action.serialPrint "MQTT connection failed, Error code: ",
   Action.serialPrint "  ...will try again after 5 seconds.",
   Action.delayMs 5000]

/-- The successful (final) iteration of the `reconnect()` loop body: log
the attempt, `client.connect(mqtt_clientID)` (client id only), log
success, publish `"reconnected"` on the outbound topic and re-subscribe
to the inbound topic. -/
def attemptSucc (cfg : Config) : List Action :=
  [Action.serialPrint "Attempting MQTT reconnection...",
   Action.mqttConnect cfg.mqtt_clientID none,
   Action.serialPrint "connected",
   Action.publish cfg.mqtt_out_topic "reconnected",
   Action.subscribe cfg.mqtt_in_topic]

/-- The `while (!client.connected())` body of `reconnect()`, run with
`fuel` remaining iterations; `outcomes i` is the result the broker gives
the `i`-th `client.connect(mqtt_clientID)` attempt.  `none` means the
fuel ran out before an attempt succeeded, i.e. the loop is still
running. -/
def reconnectLoop (cfg : Config) (outcomes : Nat → Bool) : Nat → Nat → Option (List Action)
  | 0, _ => none
  | fuel + 1, i =>
      if outcomes i then some (attemptSucc cfg)
      else (reconnectLoop cfg outcomes fuel (i + 1)).map (fun t => attemptFail cfg ++ t)

/-- `reconnect()`: if `client.connected()` already holds the loop body
never runs.  The source never reads the WiFi (transport-link) status
inside this function — no `WiFi.status()` call appears in lines 169–185 —
so the `linkUp` argument records the link state at entry and is not
consulted by the body, mirroring the code. -/
def reconnect (cfg : Config) (_linkUp : Bool) (connected : Bool)
    (outcomes : Nat → Bool) (fuel : Nat) : Option (List Action) :=
  if connected then some [] else reconnectLoop cfg outcomes fuel 0

/-- The `while (WiFi.status() != WL_CONNECTED)` wait in `setup_wifi()`:
`status i` is what the `i`-th `WiFi.status()` check reports; each failed
check is followed by `delay(500)` and a `"."` print.  Returns the index
of the check that saw the link connected together with the trace; `none`
when the fuel ran out, i.e. the loop is still waiting. -/
def wifiWait (status : Nat → Bool) : Nat → Nat → Option (Nat × List Action)
  | 0, _ => none
  | fuel + 1, i =>
      if status i then some (i, [Action.wifiStatusCheck])
      else (wifiWait status fuel (i + 1)).map
             (fun r => (r.1, Action.wifiStatusCheck :: Action.delayMs 500 ::
                              Action.serialPrint "." :: r.2))

/-- `setup_wifi()`: serial setup and logging, hostname and station mode,
`WiFi.begin(ssid, password)`, then the 500 ms poll loop; the trailing
IP-address print is advisory logging (its runtime value is not
modelled). -/
def setup_wifi (cfg : Config) (status : Nat → Bool) (fuel : Nat) :
    Option (Nat × List Action) :=
  (wifiWait status fuel 0).map fun r =>
    (r.1,
     [Action.serialBegin 115200,
      Action.serialPrint "Connecting to ", Action.serialPrint cfg.wifi_ssid,
      Action.wifiSetHostname cfg.wifi_hostname,
      Action.wifiSetModeSTA,
      Action.wifiBegin cfg.wifi_ssid cfg.wifi_password]
     ++ r.2
     ++ [Action.serialPrint "", Action.serialPrint "WiFi connected",
         Action.serialPrint "IP address: ", Action.serialPrint ""])

/-- `setup_mqtt()`: one `client.connect(mqtt_clientID, mqtt_username,
mqtt_password)` whose result `connectOk` the broker decides; on success
the sketch logs, registers the callback, publishes `"connected"` and
subscribes to the inbound topic; on failure it only logs.  The returned
`SessionState` is the broker-session state after the call
(`client.connected()`). -/
def setup_mqtt (cfg : Config) (connectOk : Bool) : SessionState × List Action :=
  if connectOk then
    (SessionState.Active,
     [Action.mqttConnect cfg.mqtt_clientID (some (cfg.mqtt_username, cfg.mqtt_password)),
      Action.serialPrint "Connected to MQTT Broker!",
      Action.serialPrint "MQTT Broker IP: ", Action.serialPrint cfg.mqtt_server,
      Action.serialPrint "MQTT Client ID: ", Action.serialPrint cfg.mqtt_clientID,
      Action.serialPrint "",
      Action.setCallback,
      Action.publish cfg.mqtt_out_topic "connected",
      Action.subscribe cfg.mqtt_in_topic])
  else
    (SessionState.Disconnected,
     [Action.mqttConnect cfg.mqtt_clientID (some (cfg.mqtt_username, cfg.mqtt_password)),
      Action.serialPrint "Connection to MQTT Broker failed..."])

/-- The inbound messages `client.loop()` has pending this tick, delivered
one by one to the registered `callback`; `none` when a delivery hits the
callback's undefined behaviour (empty payload). -/
def deliveries : List (String × List Char) → Option (List Action)
  | [] => some []
  | m :: ms =>
      (callback m.1 m.2).bind fun t =>
        (deliveries ms).map fun ts => (Action.deliver m.1 m.2 :: t) ++ ts

/-- `client.loop()`: the poll that refreshes the connection and
synchronously dispatches every pending inbound message to the
callback. -/
def clientLoop (inbound : List (String × List Char)) : Option (List Action) :=
  (deliveries inbound).map fun ts => Action.mqttPoll :: ts

/-- Environment for one `loop()` tick. -/
structure TickEnv where
  linkUp : Bool
  connected : Bool
  reconnectOutcomes : Nat → Bool
  btn : ButtonEnv
  inbound : List (String × List Char)

/-- `loop()`: one control-loop tick — `reconnect()` guarded by
`client.connected()`, then `button()`, then `client.loop()`, strictly in
that order. -/
def tick (cfg : Config) (env : TickEnv) (fuel : Nat) : Option (List Action) :=
  (reconnect cfg env.linkUp env.connected env.reconnectOutcomes fuel).bind fun rt =>
    (clientLoop env.inbound).map fun pt =>
      rt ++ button cfg env.btn ++ pt

/-- A concrete configuration used for witnesses and counterexamples (the
real strings live in `credentials.h`; nothing below depends on their
values). -/
def cfg0 : Config :=
  { wifi_ssid := "ssid", wifi_password := "wpass", wifi_hostname := "host",
    mqtt_server := "broker", mqtt_clientID := "client", mqtt_username := "user",
    mqtt_password := "pass", mqtt_in_topic := "inTopic", mqtt_out_topic := "outTopic" }

/-- A concrete tick environment used by witnesses: session already
active, idle button, one pending inbound message `'1'`. -/
def env0 : TickEnv :=
  { linkUp := true, connected := true, reconnectOutcomes := fun _ => true,
    btn := { edge := Edge.idle, pub1 := true, conn := true, pub2 := true },
    inbound := [("inTopic", ['1'])] }

lemma ledWritesOf_append (t₁ t₂ : List Action) :
    ledWritesOf (t₁ ++ t₂) = ledWritesOf t₁ ++ ledWritesOf t₂ :=
  List.filterMap_append t₁ t₂ _

lemma ledWritesOf_prints (l : List Char) :
    ledWritesOf (l.map fun b => Action.serialPrint (String.singleton b)) = [] := by
  induction l with
  | nil => rfl
  | cons c l ih =>
      simp only [List.map_cons, ledWritesOf, List.filterMap] at ih ⊢
      exact ih

lemma filter_prints_eq_nil (p : Action → Bool)
    (hp : ∀ s, p (Action.serialPrint s) = false) (l : List Char) :
    (l.map fun b => Action.serialPrint (String.singleton b)).filter p = [] := by
  induction l with
  | nil => rfl
  | cons c l ih =>
      rw [List.map_cons, List.filter_cons, hp]
      simp only [Bool.false_eq_true, if_false]
      exact ih

lemma callback_no_publish (topic : String) (payload : List Char) (t : List Action)
    (h : callback topic payload = some t) : t.filter Action.isPublish = [] := by
  cases payload with
  | nil => simp [callback] at h
  | cons c rest =>
      simp only [callback, List.get?, Option.some_inj] at h
      subst h
      rw [List.filter_append, List.filter_append,
        filter_prints_eq_nil Action.isPublish (fun s => rfl)]
      rfl

lemma deliveries_no_publish : ∀ (ms : List (String × List Char)) (ts : List Action),
    deliveries ms = some ts → ts.filter Action.isPublish = [] := by
  intro ms
  induction ms with
  | nil =>
      intro ts h
      simp only [deliveries, Option.some_inj] at h
      subst h
      rfl
  | cons m ms ih =>
      intro ts h
      rcases Option.bind_eq_some.mp h with ⟨t, ht, h2⟩
      rcases Option.map_eq_some'.mp h2 with ⟨ts', hts', rfl⟩
      rw [List.filter_append, ih ts' hts', List.append_nil,
        show (Action.deliver m.1 m.2 :: t).filter Action.isPublish
          = t.filter Action.isPublish from rfl]
      exact callback_no_publish m.1 m.2 t ht

lemma clientLoop_no_publish (inbound : List (String × List Char)) (pt : List Action)
    (h : clientLoop inbound = some pt) : pt.filter Action.isPublish = [] := by
  rcases Option.map_eq_some'.mp h with ⟨ts, hts, rfl⟩
  rw [show (Action.mqttPoll :: ts).filter Action.isPublish
    = ts.filter Action.isPublish from rfl]
  exact deliveries_no_publish inbound ts hts

/-- C1: for a non-empty inbound payload the callback is well defined and
writes exactly one level to the LED: `LOW` (active) when the first byte
is `'1'`, `HIGH` (inactive) otherwise; the tail of the payload is
universally quantified, so no byte other than the first influences the
level written. -/
theorem callback_first_byte (topic : String) (c : Char) (rest : List Char) :
    (callback topic (c :: rest)).map ledWritesOf
      = some [if c = '1' then Level.LOW else Level.HIGH] := by
  simp only [callback, List.get?]
  rw [Option.map_some']
  congr 1
  simp only [List.map_cons]
  rw [show ([Action.serialPrint "Message arrived [", Action.serialPrint topic,
        Action.serialPrint "] "]
      ++ (Action.serialPrint (String.singleton c)
            :: rest.map (fun b => Action.serialPrint (String.singleton b)))
      ++ [Action.serialPrint "",
          Action.digitalWrite Pin.led (if c = '1' then Level.LOW else Level.HIGH)])
    = ([Action.serialPrint "Message arrived [", Action.serialPrint topic,
        Action.serialPrint "] ", Action.serialPrint (String.singleton c)]
       ++ rest.map (fun b => Action.serialPrint (String.singleton b))
       ++ [Action.serialPrint "",
           Action.digitalWrite Pin.led (if c = '1' then Level.LOW else Level.HIGH)]) by
      simp]
  rw [ledWritesOf_append, ledWritesOf_append, ledWritesOf_prints]
  rfl

/-- C4: on a zero-length payload the callback evaluates `payload[0]`,
an out-of-bounds read — undefined behaviour, not a guarded
"set inactive" path. -/
theorem callback_empty_payload_oob (topic : String) : callback topic [] = none := rfl

/-- C2: a rising edge with a successful first publish makes exactly one
publish attempt, with payload `"Button pressed!"` on the outbound topic
and no reconnect; with a failed first publish the handler performs
exactly one inline reconnect, a fixed 10 ms delay and one retried
publish — two attempts in total — and the whole failure-path trace is
independent of the reconnect and retry outcomes, so no further attempt
follows regardless of how the retry fares. -/
theorem button_rising_publish_attempts (cfg : Config) (c p₂ c' p₂' : Bool) :
    publishCount (button cfg ⟨Edge.rising, true, c, p₂⟩) = 1 ∧
    (button cfg ⟨Edge.rising, true, c, p₂⟩).filter Action.isPublish
      = [Action.publish cfg.mqtt_out_topic "Button pressed!"] ∧
    connectsOf (button cfg ⟨Edge.rising, true, c, p₂⟩) = [] ∧
    publishCount (button cfg ⟨Edge.rising, false, c, p₂⟩) = 2 ∧
    button cfg ⟨Edge.rising, false, c, p₂⟩
      = [Action.bouncerUpdate,
         Action.digitalWrite Pin.led Level.LOW,
         Action.publish cfg.mqtt_out_topic "Button pressed!",
         Action.serialPrint
           "Message failed to send. Reconnecting to MQTT Broker and trying again",
         Action.mqttConnect cfg.mqtt_clientID (some (cfg.mqtt_username, cfg.mqtt_password)),
         Action.delayMs 10,
         Action.publish cfg.mqtt_out_topic "Button pressed!"] ∧
    button cfg ⟨Edge.rising, false, c, p₂⟩ = button cfg ⟨Edge.rising, false, c', p₂'⟩ ∧
    (∀ (link : Bool) (out : Nat → Bool) (p₁ : Bool)
       (inbound : List (String × List Char)) (fuel : Nat) (t : List Action),
      tick cfg ⟨link, true, out, ⟨Edge.rising, p₁, c, p₂⟩, inbound⟩ fuel = some t →
      publishCount t = if p₁ then 1 else 2) := by
  refine ⟨rfl, rfl, rfl, rfl, rfl, rfl, ?_⟩
  intro link out p₁ inbound fuel t h
  rcases Option.map_eq_some'.mp h with ⟨pt, hpt, rfl⟩
  have hp : pt.filter Action.isPublish = [] := clientLoop_no_publish inbound pt hpt
  rw [show publishCount (([] : List Action)
      ++ button cfg ⟨Edge.rising, p₁, c, p₂⟩ ++ pt)
    = ((button cfg ⟨Edge.rising, p₁, c, p₂⟩).filter Action.isPublish
        ++ pt.filter Action.isPublish).length from by
      simp [publishCount, List.filter_append], hp, List.append_nil]
  cases p₁ <;> rfl

/-- Witness for `button_rising_publish_attempts`: a tick with an active
session, a rising edge whose first publish fails, and no pending inbound
messages — two publish attempts in the whole tick. -/
theorem button_rising_publish_attempts_witness :
    publishCount
      (([] : List Action) ++ button cfg0 ⟨Edge.rising, false, true, true⟩
        ++ [Action.mqttPoll])
      = if false then 1 else 2 :=
  (button_rising_publish_attempts cfg0 true true true true).2.2.2.2.2.2
    true (fun _ => true) false [] 1
    (([] : List Action) ++ button cfg0 ⟨Edge.rising, false, true, true⟩
      ++ [Action.mqttPoll]) rfl

/-- C9: a falling edge only writes the inactive (`HIGH`) level to the
LED: no publish, no connect, no subscribe, no callback registration, no
poll — the session and the outbound stream are untouched. -/
theorem button_falling_frame (cfg : Config) (p₁ c p₂ : Bool) :
    button cfg ⟨Edge.falling, p₁, c, p₂⟩
      = [Action.bouncerUpdate, Action.digitalWrite Pin.led Level.HIGH] ∧
    publishCount (button cfg ⟨Edge.falling, p₁, c, p₂⟩) = 0 ∧
    connectsOf (button cfg ⟨Edge.falling, p₁, c, p₂⟩) = [] ∧
    (button cfg ⟨Edge.falling, p₁, c, p₂⟩).filter Action.isSubscribe = [] ∧
    (button cfg ⟨Edge.falling, p₁, c, p₂⟩).filter Action.isSetCallback = [] ∧
    (button cfg ⟨Edge.falling, p₁, c, p₂⟩).filter Action.isPoll = [] :=
  ⟨rfl, rfl, rfl, rfl, rfl, rfl⟩

/-- C10: the inline recovery connect in the rising-edge failure path uses
the full credential set, while both branches of the `reconnect()` loop
body connect with the client id alone; the failure-path trace does not
depend on the discarded reconnect/retry booleans, and its last action is
the retried publish — nothing (in particular no log print) follows it. -/
theorem button_retry_full_credentials (cfg : Config) (c c' p₂ p₂' : Bool) :
    connectsOf (button cfg ⟨Edge.rising, false, c, p₂⟩)
      = [Action.mqttConnect cfg.mqtt_clientID (some (cfg.mqtt_username, cfg.mqtt_password))] ∧
    connectsOf (attemptFail cfg) = [Action.mqttConnect cfg.mqtt_clientID none] ∧
    connectsOf (attemptSucc cfg) = [Action.mqttConnect cfg.mqtt_clientID none] ∧
    button cfg ⟨Edge.rising, false, c, p₂⟩ = button cfg ⟨Edge.rising, false, c', p₂'⟩ ∧
    (button cfg ⟨Edge.rising, false, c, p₂⟩).getLast?
      = some (Action.publish cfg.mqtt_out_topic "Button pressed!") :=
  ⟨rfl, rfl, rfl, rfl, rfl⟩

lemma connectsOf_append (t₁ t₂ : List Action) :
    connectsOf (t₁ ++ t₂) = connectsOf t₁ ++ connectsOf t₂ :=
  List.filter_append t₁ t₂

lemma connectsOf_attemptFail_join (cfg : Config) (k : Nat) :
    connectsOf (List.flatten (List.replicate k (attemptFail cfg)))
      = List.replicate k (Action.mqttConnect cfg.mqtt_clientID none) := by
  induction k with
  | zero => rfl
  | succ k ih =>
      rw [List.replicate_succ, List.flatten_cons, connectsOf_append, ih,
        List.replicate_succ]
      rfl

lemma delays_attemptFail_join (cfg : Config) (k : Nat) :
    (List.flatten (List.replicate k (attemptFail cfg))).filter Action.isDelay
      = List.replicate k (Action.delayMs 5000) := by
  induction k with
  | zero => rfl
  | succ k ih =>
      rw [List.replicate_succ, List.flatten_cons, List.filter_append, ih,
        List.replicate_succ]
      rfl

lemma reconnectLoop_none (cfg : Config) (outcomes : Nat → Bool)
    (h : ∀ j, outcomes j = false) :
    ∀ fuel i, reconnectLoop cfg outcomes fuel i = none := by
  intro fuel
  induction fuel with
  | zero => intro i; rfl
  | succ fuel ih =>
      intro i
      simp only [reconnectLoop, h i, Bool.false_eq_true, if_false, ih (i + 1),
        Option.map_none']

lemma reconnectLoop_some (cfg : Config) (outcomes : Nat → Bool) :
    ∀ fuel i t, reconnectLoop cfg outcomes fuel i = some t →
      ∃ k, k < fuel ∧ outcomes (i + k) = true ∧ (∀ j < k, outcomes (i + j) = false) ∧
        t = List.flatten (List.replicate k (attemptFail cfg)) ++ attemptSucc cfg := by
  intro fuel
  induction fuel with
  | zero => intro i t h; exact absurd h (by simp [reconnectLoop])
  | succ fuel ih =>
      intro i t h
      by_cases hi : outcomes i = true
      · refine ⟨0, Nat.succ_pos _, by simpa using hi, by omega, ?_⟩
        simp only [reconnectLoop, hi, if_true, Option.some_inj] at h
        simp [← h]
      · simp only [reconnectLoop, hi, if_false] at h
        rcases Option.map_eq_some'.mp h with ⟨t', ht', rfl⟩
        rcases ih (i + 1) t' ht' with ⟨k, hk, hsucc, hfail, rfl⟩
        refine ⟨k + 1, by omega, by simpa [Nat.add_assoc, Nat.add_comm 1 k] using hsucc,
          ?_, ?_⟩
        · intro j hj
          cases j with
          | zero => simpa using (Bool.not_eq_true _).mp hi
          | succ j =>
              have := hfail j (by omega)
              simpa [Nat.add_assoc, Nat.add_comm 1 j] using this
        · rw [List.replicate_succ, List.flatten_cons, List.append_assoc]

/-- C3 (amended): the `reconnect()` loop has no exit other than a
successful session connect — if every attempt fails it never returns —
and when it does return, some attempt `k` succeeded, all earlier
attempts failed, and the trace is `k` copies of the failure body
(each ending with the fixed `delay(5000)` backoff) followed by the
success body (connect, `"reconnected"` publish, re-subscribe); every
connect in the trace carries the client id only, one per attempt.  The
procedure attempts the session connect directly, without checking or
waiting on the transport link. -/
theorem reconnect_loops_until_success (cfg : Config) (linkUp : Bool)
    (outcomes : Nat → Bool) (fuel : Nat) :
    ((∀ j, outcomes j = false) → reconnect cfg linkUp false outcomes fuel = none) ∧
    (∀ t, reconnect cfg linkUp false outcomes fuel = some t →
      ∃ k, k < fuel ∧ outcomes k = true ∧ (∀ j < k, outcomes j = false) ∧
        t = List.flatten (List.replicate k (attemptFail cfg)) ++ attemptSucc cfg ∧
        connectsOf t = List.replicate (k + 1) (Action.mqttConnect cfg.mqtt_clientID none) ∧
        t.filter Action.isDelay = List.replicate k (Action.delayMs 5000)) := by
  constructor
  · intro h
    simp only [reconnect, if_false, Bool.false_eq_true]
    exact reconnectLoop_none cfg outcomes h fuel 0
  · intro t h
    simp only [reconnect, if_false, Bool.false_eq_true] at h
    rcases reconnectLoop_some cfg outcomes fuel 0 t h with ⟨k, hk, hsucc, hfail, rfl⟩
    refine ⟨k, hk, by simpa using hsucc, fun j hj => by simpa using hfail j hj, rfl, ?_, ?_⟩
    · rw [connectsOf_append, connectsOf_attemptFail_join]
      rw [show connectsOf (attemptSucc cfg)
        = [Action.mqttConnect cfg.mqtt_clientID none] from rfl]
      rw [List.replicate_succ']
    · rw [List.filter_append, delays_attemptFail_join,
        show (attemptSucc cfg).filter Action.isDelay = [] from rfl, List.append_nil]

/-- Witness for `reconnect_loops_until_success`: outcomes failing once
then succeeding, fuel 3. -/
theorem reconnect_loops_until_success_witness :
    ∃ k, k < 3 ∧ (fun j => decide (1 ≤ j)) k = true ∧
      (∀ j < k, (fun j => decide (1 ≤ j)) j = false) ∧
      attemptFail cfg0 ++ attemptSucc cfg0
        = List.flatten (List.replicate k (attemptFail cfg0)) ++ attemptSucc cfg0 ∧
      connectsOf (attemptFail cfg0 ++ attemptSucc cfg0)
        = List.replicate (k + 1) (Action.mqttConnect cfg0.mqtt_clientID none) ∧
      (attemptFail cfg0 ++ attemptSucc cfg0).filter Action.isDelay
        = List.replicate k (Action.delayMs 5000) :=
  (reconnect_loops_until_success cfg0 false (fun j => decide (1 ≤ j)) 3).2
    (attemptFail cfg0 ++ attemptSucc cfg0) rfl

/-- Counterexample to C3 as stated: invoked with the transport link down
(`linkUp = false`), `reconnect()` proceeds straight to the session
connect — its trace is identical to the link-up trace, contains no wait
of any kind (no delay, no WiFi status check) before its connect, and
still returns successfully; so the procedure does not "block until the
link is connected". -/
theorem reconnect_ignores_link_state :
    reconnect cfg0 false false (fun _ => true) 1 = some (attemptSucc cfg0) ∧
    reconnect cfg0 false false (fun _ => true) 1
      = reconnect cfg0 true false (fun _ => true) 1 ∧
    (attemptSucc cfg0).filter Action.isDelay = [] ∧
    Action.wifiStatusCheck ∉ attemptSucc cfg0 ∧
    (attemptSucc cfg0).get? 1 = some (Action.mqttConnect cfg0.mqtt_clientID none) :=
  ⟨rfl, rfl, rfl, by decide, rfl⟩

/-- C5: a successful initial session connect yields session state
`Active`, and the trace registers the callback, publishes `"connected"`
on the outbound topic (the only publish in the trace) and subscribes to
the inbound topic, in that order. -/
theorem setup_mqtt_success_effects (cfg : Config) :
    (setup_mqtt cfg true).1 = SessionState.Active ∧
    publishCount (setup_mqtt cfg true).2 = 1 ∧
    ∃ i j k, i < j ∧ j < k ∧
      ((setup_mqtt cfg true).2).get? i = some Action.setCallback ∧
      ((setup_mqtt cfg true).2).get? j
        = some (Action.publish cfg.mqtt_out_topic "connected") ∧
      ((setup_mqtt cfg true).2).get? k = some (Action.subscribe cfg.mqtt_in_topic) :=
  ⟨rfl, rfl, 7, 8, 9, by omega, by omega, rfl, rfl, rfl⟩

/-- C6: a failed initial session connect leaves the session
`Disconnected` and only logs: after the connect attempt the trace holds
one diagnostic print and none of the success-path effects — no publish,
no subscription, no callback registration — and `setup_mqtt` returns
normally (it is a total function; nothing terminates the program). -/
theorem setup_mqtt_failure_no_effects (cfg : Config) :
    (setup_mqtt cfg false).1 = SessionState.Disconnected ∧
    (setup_mqtt cfg false).2
      = [Action.mqttConnect cfg.mqtt_clientID (some (cfg.mqtt_username, cfg.mqtt_password)),
         Action.serialPrint "Connection to MQTT Broker failed..."] ∧
    publishCount (setup_mqtt cfg false).2 = 0 ∧
    ((setup_mqtt cfg false).2).filter Action.isSubscribe = [] ∧
    ((setup_mqtt cfg false).2).filter Action.isSetCallback = [] :=
  ⟨rfl, rfl, rfl, rfl, rfl⟩

lemma reconnectLoop_no_deliver (cfg : Config) (outcomes : Nat → Bool) :
    ∀ fuel i t, reconnectLoop cfg outcomes fuel i = some t →
      t.filter Action.isDeliver = [] := by
  intro fuel
  induction fuel with
  | zero => intro i t h; simp [reconnectLoop] at h
  | succ fuel ih =>
      intro i t h
      by_cases hi : outcomes i = true
      · simp only [reconnectLoop, hi, if_true, Option.some_inj] at h
        subst h
        rfl
      · simp only [reconnectLoop, hi, Bool.false_eq_true, if_false] at h
        rcases Option.map_eq_some'.mp h with ⟨t', ht', rfl⟩
        rw [List.filter_append, ih (i + 1) t' ht']
        rfl

lemma reconnect_no_deliver (cfg : Config) (linkUp connected : Bool)
    (outcomes : Nat → Bool) (fuel : Nat) (t : List Action)
    (h : reconnect cfg linkUp connected outcomes fuel = some t) :
    t.filter Action.isDeliver = [] := by
  by_cases hc : connected = true
  · subst hc
    simp only [reconnect, if_true, Option.some_inj] at h
    subst h
    rfl
  · rw [Bool.not_eq_true] at hc
    subst hc
    simp only [reconnect, Bool.false_eq_true, if_false] at h
    exact reconnectLoop_no_deliver cfg outcomes fuel 0 t h

lemma button_no_deliver (cfg : Config) (env : ButtonEnv) :
    (button cfg env).filter Action.isDeliver = [] := by
  rcases env with ⟨edge, p1, c, p2⟩
  cases edge <;> cases p1 <;> rfl

lemma publish_before_deliver {l₁ l₂ : List Action}
    (h₁ : l₁.filter Action.isDeliver = []) (h₂ : l₂.filter Action.isPublish = []) :
    ∀ i j a b, (l₁ ++ l₂).get? i = some a → a.isPublish = true →
      (l₁ ++ l₂).get? j = some b → b.isDeliver = true → i < j := by
  intro i j a b hi ha hj hb
  have hil : i < l₁.length := by
    by_contra hcon
    push_neg at hcon
    rw [List.get?_append_right hcon] at hi
    have hmem : a ∈ l₂ := List.get?_mem hi
    have := List.filter_eq_nil.mp h₂ a hmem
    rw [ha] at this
    exact this rfl
  have hjl : l₁.length ≤ j := by
    by_contra hcon
    push_neg at hcon
    rw [List.get?_append hcon] at hj
    have hmem : b ∈ l₁ := List.get?_mem hj
    have := List.filter_eq_nil.mp h₁ b hmem
    rw [hb] at this
    exact this rfl
  omega

/-- C7: a tick that completes is exactly the serial concatenation of the
reconnect step (empty when the session is already active), the button
step, and the poll step; no inbound delivery occurs outside the poll
step, no publish occurs inside it, and therefore every publish in the
tick trace strictly precedes every inbound delivery — messages are never
processed concurrently. -/
theorem tick_serializes (cfg : Config) (env : TickEnv) (fuel : Nat) (t : List Action)
    (h : tick cfg env fuel = some t) :
    ∃ rt pt,
      reconnect cfg env.linkUp env.connected env.reconnectOutcomes fuel = some rt ∧
      clientLoop env.inbound = some pt ∧
      t = rt ++ button cfg env.btn ++ pt ∧
      (env.connected = true → rt = []) ∧
      (rt ++ button cfg env.btn).filter Action.isDeliver = [] ∧
      pt.filter Action.isPublish = [] ∧
      (∀ i j a b, t.get? i = some a → a.isPublish = true →
        t.get? j = some b → b.isDeliver = true → i < j) := by
  rcases Option.bind_eq_some.mp h with ⟨rt, hrt, h2⟩
  rcases Option.map_eq_some'.mp h2 with ⟨pt, hpt, rfl⟩
  have hrd : rt.filter Action.isDeliver = [] :=
    reconnect_no_deliver cfg _ _ _ fuel rt hrt
  have h₁ : (rt ++ button cfg env.btn).filter Action.isDeliver = [] := by
    rw [List.filter_append, hrd, button_no_deliver cfg env.btn]
    rfl
  have h₂ : pt.filter Action.isPublish = [] := clientLoop_no_publish env.inbound pt hpt
  have key := publish_before_deliver h₁ h₂
  refine ⟨rt, pt, hrt, hpt, rfl, ?_, h₁, h₂, key⟩
  intro hc
  rw [show reconnect cfg env.linkUp env.connected env.reconnectOutcomes fuel
    = if env.connected then some []
      else reconnectLoop cfg env.reconnectOutcomes fuel 0 from rfl, hc] at hrt
  simpa using hrt.symm

/-- Witness for `tick_serializes`: active session, idle button, one
pending inbound `'1'` message. -/
theorem tick_serializes_witness :
    ∃ rt pt,
      reconnect cfg0 env0.linkUp env0.connected env0.reconnectOutcomes 1 = some rt ∧
      clientLoop env0.inbound = some pt ∧
      ([Action.bouncerUpdate, Action.mqttPoll, Action.deliver "inTopic" ['1'],
        Action.serialPrint "Message arrived [", Action.serialPrint "inTopic",
        Action.serialPrint "] ", Action.serialPrint (String.singleton '1'),
        Action.serialPrint "", Action.digitalWrite Pin.led Level.LOW]
        : List Action) = rt ++ button cfg0 env0.btn ++ pt ∧
      (env0.connected = true → rt = []) ∧
      (rt ++ button cfg0 env0.btn).filter Action.isDeliver = [] ∧
      pt.filter Action.isPublish = [] ∧
      (∀ i j a b,
        ([Action.bouncerUpdate, Action.mqttPoll, Action.deliver "inTopic" ['1'],
          Action.serialPrint "Message arrived [", Action.serialPrint "inTopic",
          Action.serialPrint "] ", Action.serialPrint (String.singleton '1'),
          Action.serialPrint "", Action.digitalWrite Pin.led Level.LOW]
          : List Action).get? i = some a → a.isPublish = true →
        ([Action.bouncerUpdate, Action.mqttPoll, Action.deliver "inTopic" ['1'],
          Action.serialPrint "Message arrived [", Action.serialPrint "inTopic",
          Action.serialPrint "] ", Action.serialPrint (String.singleton '1'),
          Action.serialPrint "", Action.digitalWrite Pin.led Level.LOW]
          : List Action).get? j = some b → b.isDeliver = true → i < j) :=
  tick_serializes cfg0 env0 1
    [Action.bouncerUpdate, Action.mqttPoll, Action.deliver "inTopic" ['1'],
     Action.serialPrint "Message arrived [", Action.serialPrint "inTopic",
     Action.serialPrint "] ", Action.serialPrint (String.singleton '1'),
     Action.serialPrint "", Action.digitalWrite Pin.led Level.LOW] rfl

lemma wifiWait_none (status : Nat → Bool) (h : ∀ j, status j = false) :
    ∀ fuel i, wifiWait status fuel i = none := by
  intro fuel
  induction fuel with
  | zero => intro i; rfl
  | succ fuel ih =>
      intro i
      simp only [wifiWait, h i, Bool.false_eq_true, if_false, ih (i + 1),
        Option.map_none']

lemma wifiWait_some (status : Nat → Bool) :
    ∀ fuel i n t, wifiWait status fuel i = some (n, t) →
      status n = true ∧ i ≤ n ∧ (∀ j, i ≤ j → j < n → status j = false) ∧
      t.filter Action.isDelay = List.replicate (n - i) (Action.delayMs 500) := by
  intro fuel
  induction fuel with
  | zero => intro i n t h; simp [wifiWait] at h
  | succ fuel ih =>
      intro i n t h
      by_cases hi : status i = true
      · simp only [wifiWait, hi, if_true, Option.some_inj] at h
        obtain ⟨rfl, rfl⟩ := Prod.mk.inj h
        refine ⟨hi, Nat.le_refl i, fun j h1 h2 => absurd (Nat.lt_of_le_of_lt h1 h2)
          (Nat.lt_irrefl i), ?_⟩
        simp [Nat.sub_self, Action.isDelay]
      · simp only [wifiWait, hi, Bool.false_eq_true, if_false] at h
        rcases Option.map_eq_some'.mp h with ⟨⟨n', t'⟩, ht', heq⟩
        obtain ⟨rfl, rfl⟩ := Prod.mk.inj heq.symm
        rcases ih (i + 1) n t' ht' with ⟨h1, h2, h3, h4⟩
        refine ⟨h1, by omega, ?_, ?_⟩
        · intro j hij hjn
          rcases Nat.eq_or_lt_of_le hij with rfl | hlt
          · exact (Bool.not_eq_true _).mp hi
          · exact h3 j (by omega) hjn
        · rw [show (Action.wifiStatusCheck :: Action.delayMs 500 ::
              Action.serialPrint "." :: t').filter Action.isDelay
            = Action.delayMs 500 :: t'.filter Action.isDelay from rfl, h4,
            show n - i = (n - (i + 1)) + 1 by omega, List.replicate_succ]

/-- C8: the WiFi connect never returns while the link is down — if every
status check fails it returns `none` (still waiting) for every fuel
bound, so there is no upper retry bound — and when the wait loop does
return at check `n`, that check saw the link connected, every earlier
check saw it down, and the trace holds exactly one fixed `delay(500)`
per failed check. -/
theorem setup_wifi_blocks_until_connected (cfg : Config) (status : Nat → Bool)
    (fuel : Nat) :
    ((∀ j, status j = false) → setup_wifi cfg status fuel = none) ∧
    (∀ n t, wifiWait status fuel 0 = some (n, t) →
      status n = true ∧ (∀ j < n, status j = false) ∧
      t.filter Action.isDelay = List.replicate n (Action.delayMs 500)) := by
  constructor
  · intro h
    simp only [setup_wifi, wifiWait_none status h fuel 0, Option.map_none']
  · intro n t h
    rcases wifiWait_some status fuel 0 n t h with ⟨h1, _, h3, h4⟩
    exact ⟨h1, fun j hj => h3 j (Nat.zero_le j) hj, by simpa using h4⟩

/-- Witness for `setup_wifi_blocks_until_connected`: the link comes up
at the second status check. -/
theorem setup_wifi_blocks_until_connected_witness :
    (fun j => decide (1 ≤ j)) 1 = true ∧
    (∀ j < 1, (fun j => decide (1 ≤ j)) j = false) ∧
    ([Action.wifiStatusCheck, Action.delayMs 500, Action.serialPrint ".",
      Action.wifiStatusCheck].filter Action.isDelay)
      = List.replicate 1 (Action.delayMs 500) :=
  (setup_wifi_blocks_until_connected cfg0 (fun j => decide (1 ≤ j)) 3).2 1
    [Action.wifiStatusCheck, Action.delayMs 500, Action.serialPrint ".",
     Action.wifiStatusCheck] rfl

end MQTT
